import Mathlib

/-
Verification of `pyncoda/ncoda_07a_generate_hui.py` (class
`generate_hui_functions`): a shallow embedding of the two operations the
design claims talk about,

  * `return_dataservice_id` (lines 132-165): the publish gate that searches
    the IN-CORE catalog by title and decides whether an existing dataset id
    can be reused, and
  * `generate_hui_v2_for_incore` (lines 167-306): the per-community loop
    that generates per-county tables, concatenates them, normalizes cell
    types, writes two CSV files and uploads the result.

External collaborators (the census workflow `run_hui_workflow` /
`final_polish_hui` / `save_incore_version2`, `directory_design`, the IN-CORE
data service, the filesystem and stdin) are not part of this file's source;
they enter the embedding as components of a `Pipeline` record.  Figure and
codebook generation (lines 234-268) produce no table output and are out of
scope of the claims, so the embedding does not track them.
-/

/-- A cell of a pandas DataFrame as the normalization step at line 223 sees
it: an integer, a float, or a string.  A float is modelled by its printed
decimal form (sign, integer part, fractional digit string), matching how
Python prints floats of ordinary magnitude: a whole-valued float prints with
a trailing `.0` (`str(4.0) == '4.0'`) and a float with a nonzero fractional
part prints its shortest digit string, which never ends in the digit 0
(`str(45231.5) == '45231.5'`). -/
inductive Cell where
  | cInt : Int → Cell
  | cFloat : Bool → Nat → String → Cell
  | cStr : String → Cell
deriving DecidableEq

abbrev Row := List Cell

abbrev Table := List Row

/-- Python `str(cell)`, as a character list. -/
def pystr_chars : Cell → List Char
  | Cell.cInt n => (toString n).data
  | Cell.cFloat neg ip frac =>
      (if neg then ['-'] else []) ++ (toString ip).data ++ '.' :: frac.data
  | Cell.cStr s => s.data

/-- Python `str(cell).endswith('.0')`: the last two characters are `.` `0`. -/
def ends_in_dot0 (cs : List Char) : Bool :=
  match cs.reverse with
  | c0 :: c1 :: _ => c0 == '0' && c1 == '.'
  | _ => false

/-- Value of a nonempty all-digit character list; `none` otherwise. -/
def digits_value (cs : List Char) : Option Nat :=
  if cs ≠ [] ∧ cs.all Char.isDigit then
    some (cs.foldl (fun a ch => 10 * a + (ch.toNat - 48)) 0)
  else none

/-- Python `int(s)` on a plain integer literal (optional minus sign followed
by digits); anything else, e.g. `"4.0"`, raises `ValueError` (`none`). -/
def py_int_of_chars (cs : List Char) : Option Int :=
  match cs with
  | '-' :: rest => (digits_value rest).map fun n => -(n : Int)
  | _ => (digits_value cs).map fun n => (n : Int)

/-- Python `int(cell)`: the identity on ints, truncation on floats, literal
parsing on strings (failure modelled as `none`). -/
def py_int : Cell → Option Int
  | Cell.cInt n => some n
  | Cell.cFloat neg ip _ => some (if neg then -(ip : Int) else (ip : Int))
  | Cell.cStr s => py_int_of_chars s.data

/-- The `applymap` lambda of line 223:
`lambda cell: int(cell) if str(cell).endswith('.0') else cell`.
`none` models the lambda raising (only possible for string cells whose text
ends in `.0`). -/
def fix_cell (cell : Cell) : Option Cell :=
  if ends_in_dot0 (pystr_chars cell) then (py_int cell).map Cell.cInt
  else some cell

/-- `hui_incore_df.applymap(...)` of lines 222-223: the lambda applied to
every cell of the table. -/
def fix_table (t : Table) : Option Table :=
  t.mapM fun row => row.mapM fix_cell

/-- One entry of the `fileDescriptors` list of a catalog dataset. -/
structure FileDescriptor where
  filename : String
deriving DecidableEq

/-- One dataset of the JSON body of the search response used at
lines 136-154 (`dataset['title']`, `dataset['fileDescriptors']`,
`dataset['id']`). -/
structure Dataset where
  title : String
  fileDescriptors : List FileDescriptor
  id : String
deriving DecidableEq

/-- `dataset['fileDescriptors'][0]['filename']` (line 141); `none` models the
`IndexError` when the descriptor list is empty. -/
def first_fd_filename (d : Dataset) : Option String :=
  d.fileDescriptors.head?.map FileDescriptor.filename

/-- Embedding of `return_dataservice_id(self, title, output_filename)`
(lines 132-165).  `matched` is the JSON list of the search response obtained
through `check_file_on_incore(title)`; `user_input` models the stdin read of
line 163 (`none`: no input is supplied).  The outer `Option` distinguishes a
normal `return` (`some`) from the call raising or blocking on stdin (`none`);
the inner `Option String` is the returned Python value (`None` or a dataset
id).  In the multiple-match branch the selection
`matched_datasets[int(input(...))][...]["id"]` is read at the level of the
search-result list: an id of one of the matches, chosen by the externally
supplied index. -/
def return_dataservice_id (matched : List Dataset) (title output_filename : String)
    (user_input : Option Nat) : Option (Option String) :=
  if matched.length = 1 then
    match matched with
    | [] => some none
    | dataset :: _ =>
      match first_fd_filename dataset with
      | none => none
      | some incore_filename =>
        if dataset.title = title ∧ incore_filename = output_filename ++ ".csv" then
          some (some dataset.id)
        else
          some none
  else if matched.length = 0 then
    some none
  else
    match user_input with
    | none => none
    | some k =>
      match matched[k]? with
      | none => none
      | some dataset => some (some dataset.id)

/-- One county entry of `communities[community]['counties']`:
`'FIPS Code'` and `'Name'` (lines 191-192). -/
structure County where
  fips : String
  name : String
deriving DecidableEq

/-- One entry of the `communities` mapping: `'community_name'` (line 176) and
the insertion-ordered `'counties'` dict (line 190). -/
structure Community where
  community_name : String
  counties : List (String × County)
deriving DecidableEq

/-- The run configuration of a `generate_hui_functions` object together with
its external collaborators.

* `catalog` — the catalog search of `check_file_on_incore`: title text to
  JSON result list (a fixed snapshot of the remote service);
* `run_workflow` — Modelled from the spec: the per-county synthesis
  (`hui_workflow_functions.run_hui_workflow` composed with
  `final_polish_hui` and `save_incore_version2`, lines 200-216), whose code
  lives outside this file's source; per spec sections 3, 4.3 and 8 it is a
  deterministic function of the county (FIPS code and name) once the seed,
  version and vintage of the run are fixed, which this record fixes;
* `topFolder` — `directory_design(state_county_name, ...)['top']`
  (lines 197-198), keyed by the county name;
* `syspath0` — `sys.path[0]` (line 227);
* `create_dataset_id` — the id of the dataset created for the given title by
  `data_service.create_dataset` (lines 293-295);
* `writeOk` — whether `to_csv` succeeds at a path (lines 228 and 232);
* `user_input` — stdin for the multiple-match branch of the publish gate;
* `version_text`, `basevintage`, `seed` — the constructor arguments used in
  the output filename (line 178). -/
structure Pipeline where
  catalog : String → List Dataset
  run_workflow : String → String → Table
  topFolder : String → String
  syspath0 : String
  create_dataset_id : String → String
  writeOk : String → Bool
  user_input : Option Nat
  version_text : String
  basevintage : Nat
  seed : Nat

/-- `title` of line 176. -/
def community_title (cd : Community) : String :=
  "Housing Unit Inventory v2.0.0 data for " ++ cd.community_name

/-- `output_filename` of line 178:
`f'hui_{version_text}_{community}_{basevintage}_rs{seed}'`. -/
def hui_output_filename (p : Pipeline) (community : String) : String :=
  "hui_" ++ p.version_text ++ "_" ++ community ++ "_" ++ toString p.basevintage
    ++ "_rs" ++ toString p.seed

/-- `csv_filepath` of line 226 (`top` is the last county's output folder). -/
def csv_filepath (p : Pipeline) (top community : String) : String :=
  top ++ "/" ++ hui_output_filename p community ++ ".csv"

/-- `savefile` of line 227: the run-specific output location. -/
def savefile_path (p : Pipeline) (top community : String) : String :=
  p.syspath0 ++ "/" ++ csv_filepath p top community

/-- `common_directory + '.csv'` of lines 231-232: the shared output
location. -/
def common_directory_csv (p : Pipeline) (top community : String) : String :=
  top ++ "/../../" ++ hui_output_filename p community ++ ".csv"

/-- Python dict assignment `m[k] = v` on an insertion-ordered association
list: an existing key keeps its position and gets the new value, a new key is
appended. -/
def insertAssoc (m : List (String × Table)) (k : String) (v : Table) :
    List (String × Table) :=
  if m.any fun q => q.1 == k then
    m.map fun q => if q.1 == k then (k, v) else q
  else
    m ++ [(k, v)]

/-- The dict `hui_incore_county_df` after the county loop of lines 190-216:
for each county, `hui_incore_county_df[state_county] = ...` with
`state_county` the county's FIPS code. -/
def county_tables (p : Pipeline) (counties : List (String × County)) :
    List (String × Table) :=
  counties.foldl
    (fun dict e => insertAssoc dict e.2.fips (p.run_workflow e.2.fips e.2.name))
    []

/-- The `outputfolders['top']` in scope after the county loop (line 226):
the folder of the county of the last loop iteration; `none` when the loop
never ran. -/
def last_top (p : Pipeline) (counties : List (String × County)) : Option String :=
  counties.getLast?.map fun e => p.topFolder e.2.name

/-- `hui_incore_df` of lines 219-220:
`pd.concat(hui_incore_county_df.values(), ignore_index=True, axis=0)`,
the dict values concatenated in insertion order. -/
def hui_incore_df (p : Pipeline) (counties : List (String × County)) : Table :=
  ((county_tables p counties).map Prod.snd).flatten

/-- Outcome of one iteration of the community loop: an early return with an
existing id (line 187), a completed generate-and-upload leaving `dataset_id`
bound to the created id (line 295), or an uncaught exception. -/
inductive CommStep where
  | early : String → CommStep
  | completed : String → CommStep
  | failed : CommStep
deriving DecidableEq

/-- Observable actions of one run, in program order: the publish check of
line 182, the per-county generation of lines 200-216, the table writes of
lines 228 and 232 (path and written content), and the upload of
lines 293-300. -/
inductive Event where
  | checked : String → Event
  | generated : String → String → Event
  | wrote : String → Table → Event
  | uploaded : String → String → Event
deriving DecidableEq

/-- The community an event belongs to (table writes are identified by path,
not community). -/
def eventCommunity : Event → Option String
  | Event.checked c => some c
  | Event.generated c _ => some c
  | Event.wrote _ _ => none
  | Event.uploaded c _ => some c

/-- One iteration of the community loop (lines 172-304) for key `community`
with entry `cd`, returning the outcome and the event trace of the iteration.
The branches, in source order: the publish check (line 182) with its early
return (lines 185-187); the county loop (lines 190-216); `pd.concat`, which
raises on an empty dict (line 219, the `last_top ... = none` case, which
coincides with the county dict being empty); the type normalization
(line 223), which raises if the `applymap` lambda does; the two CSV writes
(lines 226-232), each fatal on failure; and the upload (lines 293-300).
Figures and the codebook (lines 234-268) write no tables and are omitted. -/
def run_one_community (p : Pipeline) (community : String) (cd : Community) :
    CommStep × List Event :=
  match return_dataservice_id (p.catalog (community_title cd))
      (community_title cd) (hui_output_filename p community) p.user_input with
  | none => (CommStep.failed, [Event.checked community])
  | some (some i) => (CommStep.early i, [Event.checked community])
  | some none =>
    match last_top p cd.counties with
    | none =>
        (CommStep.failed,
          Event.checked community
            :: cd.counties.map fun e => Event.generated community e.1)
    | some top =>
      match fix_table (hui_incore_df p cd.counties) with
      | none =>
          (CommStep.failed,
            Event.checked community
              :: cd.counties.map fun e => Event.generated community e.1)
      | some fixed =>
        if p.writeOk (savefile_path p top community) then
          if p.writeOk (common_directory_csv p top community) then
            (CommStep.completed (p.create_dataset_id (community_title cd)),
              Event.checked community
                :: (cd.counties.map fun e => Event.generated community e.1)
                ++ [Event.wrote (savefile_path p top community) fixed,
                    Event.wrote (common_directory_csv p top community) fixed,
                    Event.uploaded community
                      (p.create_dataset_id (community_title cd))])
          else
            (CommStep.failed,
              Event.checked community
                :: (cd.counties.map fun e => Event.generated community e.1)
                ++ [Event.wrote (savefile_path p top community) fixed])
        else
          (CommStep.failed,
            Event.checked community
              :: cd.counties.map fun e => Event.generated community e.1)

/-- The community loop threading the `dataset_id` variable: `last` is the
current binding of `dataset_id` (`none`: not yet bound).  An early return
stops the loop with that id; a completed iteration rebinds `dataset_id` and
continues; after the loop, `return dataset_id` (line 306) yields the binding,
a `NameError` (`none`) when the loop never bound it. -/
def gen_go (p : Pipeline) :
    List (String × Community) → Option String → Option String × List Event
  | [], last => (last, [])
  | (c, cd) :: rest, _last =>
    match run_one_community p c cd with
    | (CommStep.failed, evs) => (none, evs)
    | (CommStep.early i, evs) => (some i, evs)
    | (CommStep.completed i, evs) =>
        ((gen_go p rest (some i)).1, evs ++ (gen_go p rest (some i)).2)

/-- Embedding of `generate_hui_v2_for_incore(self)` (lines 167-306): the
returned value (`none` models the call raising) and the event trace. -/
def generate_hui_v2_for_incore (p : Pipeline) (communities : List (String × Community)) :
    Option String × List Event :=
  gen_go p communities none

lemma ends_in_dot0_append_dot0 (l : List Char) :
    ends_in_dot0 (l ++ ['.', '0']) = true := by
  simp [ends_in_dot0, List.reverse_append]

lemma ends_in_dot0_last_ne (xs : List Char) (ch : Char) (h0 : ch ≠ '0') :
    ends_in_dot0 (xs ++ [ch]) = false := by
  unfold ends_in_dot0
  rw [List.reverse_append]
  cases hxs : xs.reverse with
  | nil => simp
  | cons a as => simp [beq_eq_false_iff_ne.mpr h0]

lemma fix_cell_whole (neg : Bool) (ip : Nat) :
    fix_cell (Cell.cFloat neg ip "0")
      = some (Cell.cInt (if neg then -(ip : Int) else (ip : Int))) := by
  have hs : pystr_chars (Cell.cFloat neg ip "0")
      = ((if neg then ['-'] else []) ++ (toString ip).data) ++ ['.', '0'] := by
    simp [pystr_chars]
  have h : ends_in_dot0 (pystr_chars (Cell.cFloat neg ip "0")) = true := by
    rw [hs]; exact ends_in_dot0_append_dot0 _
  simp [fix_cell, h, py_int]

lemma fix_cell_fractional (neg : Bool) (ip : Nat) (frac : String) (ch : Char)
    (hl : frac.data.getLast? = some ch) (h0 : ch ≠ '0') :
    fix_cell (Cell.cFloat neg ip frac) = some (Cell.cFloat neg ip frac) := by
  obtain ⟨l, hl2⟩ := List.getLast?_eq_some_iff.mp hl
  have hs : pystr_chars (Cell.cFloat neg ip frac)
      = (((if neg then ['-'] else []) ++ (toString ip).data) ++ '.' :: l) ++ [ch] := by
    simp [pystr_chars, hl2]
  have h : ends_in_dot0 (pystr_chars (Cell.cFloat neg ip frac)) = false := by
    rw [hs]; exact ends_in_dot0_last_ne _ ch h0
  simp [fix_cell, h]

/-- C2: the type normalization of lines 222-223 (applied to every cell of the
concatenated table by `fix_table`) converts a code value left in fractional
representation by a join, printed `...·0` (e.g. `4.0`), to its integer form
(`4`), and leaves every genuinely fractional value — one whose printed
fractional digits, which for a Python float never end in the digit 0 unless
they are exactly `0`, end in a nonzero digit (e.g. `45231.5`) — unaltered,
whatever field it belongs to. -/
theorem claim_C2 (neg : Bool) (ip : Nat) (frac : String) (ch : Char) :
    fix_cell (Cell.cFloat neg ip "0")
      = some (Cell.cInt (if neg then -(ip : Int) else (ip : Int)))
    ∧ (frac.data.getLast? = some ch → ch ≠ '0' →
        fix_cell (Cell.cFloat neg ip frac) = some (Cell.cFloat neg ip frac)) :=
  ⟨fix_cell_whole neg ip, fun hl h0 => fix_cell_fractional neg ip frac ch hl h0⟩

/-- Witness for C2 at the spec's own examples: `4.0` becomes `4`, the income
value `45231.5` is unchanged. -/
theorem claim_C2_witness :
    fix_cell (Cell.cFloat false 4 "0") = some (Cell.cInt 4)
    ∧ fix_cell (Cell.cFloat false 45231 "5") = some (Cell.cFloat false 45231 "5") :=
  ⟨(claim_C2 false 4 "5" '5').1, (claim_C2 false 45231 "5" '5').2 rfl (by decide)⟩

lemma rds_single_match (d : Dataset) (t f : String) (ui : Option Nat)
    (h1 : d.title = t) (h2 : first_fd_filename d = some (f ++ ".csv")) :
    return_dataservice_id [d] t f ui = some (some d.id) := by
  simp [return_dataservice_id, h2, h1]

lemma rds_zero (t f : String) (ui : Option Nat) :
    return_dataservice_id [] t f ui = some none := rfl

lemma generated_mem_of_search_none (p : Pipeline) (c : String) (cd : Community)
    (k : String) (cty : County) (rest : List (String × County))
    (h : return_dataservice_id (p.catalog (community_title cd)) (community_title cd)
        (hui_output_filename p c) p.user_input = some none)
    (hc : cd.counties = (k, cty) :: rest) :
    Event.generated c k ∈ (run_one_community p c cd).2 := by
  unfold run_one_community
  rw [h]
  cases hlt : last_top p cd.counties with
  | none => simp [hc]
  | some top =>
    cases hft : fix_table (hui_incore_df p cd.counties) with
    | none => simp [hc]
    | some fixed =>
      cases hw1 : p.writeOk (savefile_path p top c) with
      | false => simp [hw1, hc]
      | true =>
        cases hw2 : p.writeOk (common_directory_csv p top c) with
        | false => simp [hw1, hw2, hc]
        | true => simp [hw1, hw2, hc]

/-- C1: the publish gate on a single search match that agrees in both title
and expected output filename returns that dataset's id; on zero matches it
returns `None`, and the caller (`generate_hui_v2_for_incore`) then proceeds
to generate the counties of the community. -/
theorem claim_C1 (t f : String) (d : Dataset) (ui : Option Nat)
    (h1 : d.title = t) (h2 : first_fd_filename d = some (f ++ ".csv")) :
    return_dataservice_id [d] t f ui = some (some d.id)
    ∧ return_dataservice_id [] t f ui = some none
    ∧ ∀ (p : Pipeline) (c : String) (cd : Community) (k : String) (cty : County)
        (rest : List (String × County)),
        p.catalog (community_title cd) = [] →
        cd.counties = (k, cty) :: rest →
        Event.generated c k ∈ (run_one_community p c cd).2 := by
  refine ⟨rds_single_match d t f ui h1 h2, rds_zero t f ui, ?_⟩
  intro p c cd k cty rest hcat hc
  exact generated_mem_of_search_none p c cd k cty rest (by rw [hcat]; exact rds_zero _ _ _) hc

/-- C9: the publish gate on a single search match that differs in title or in
first-descriptor filename returns `None`, and the pipeline then regenerates
the community (its counties are generated) instead of reusing the
near-match. -/
theorem claim_C9 (p : Pipeline) (c : String) (cd : Community) (d : Dataset) (fn : String)
    (hfd : first_fd_filename d = some fn)
    (h : d.title ≠ community_title cd ∨ fn ≠ hui_output_filename p c ++ ".csv")
    (hcat : p.catalog (community_title cd) = [d]) :
    return_dataservice_id [d] (community_title cd) (hui_output_filename p c)
        p.user_input = some none
    ∧ ∀ (k : String) (cty : County) (rest : List (String × County)),
        cd.counties = (k, cty) :: rest →
        Event.generated c k ∈ (run_one_community p c cd).2 := by
  have hnone : return_dataservice_id [d] (community_title cd)
      (hui_output_filename p c) p.user_input = some none := by
    rcases h with h | h
    · simp [return_dataservice_id, hfd, h]
    · simp [return_dataservice_id, hfd, h]
  refine ⟨hnone, ?_⟩
  intro k cty rest hc
  exact generated_mem_of_search_none p c cd k cty rest (by rw [hcat]; exact hnone) hc

/-- C4: on more than one search match the publish gate never silently picks a
match: with no external input it returns no dataset id at all (it blocks on
the stdin read of line 163), and any id it does return is the one at the
externally chosen index. -/
theorem claim_C4 (matched : List Dataset) (t f : String)
    (h : 1 < matched.length) :
    return_dataservice_id matched t f none = none
    ∧ ∀ (inp : Option Nat) (r : String),
        return_dataservice_id matched t f inp = some (some r) →
        ∃ k d, inp = some k ∧ matched[k]? = some d ∧ r = d.id := by
  have h1 : ¬ matched.length = 1 := by omega
  have h0 : ¬ matched.length = 0 := by omega
  constructor
  · simp [return_dataservice_id, h1, h0]
  · intro inp r hr
    cases inp with
    | none => simp [return_dataservice_id, h1, h0] at hr
    | some k =>
      cases hk : matched[k]? with
      | none => simp [return_dataservice_id, h1, h0, hk] at hr
      | some d =>
        refine ⟨k, d, rfl, hk, ?_⟩
        simp [return_dataservice_id, h1, h0, hk] at hr
        exact hr.symm

lemma run_one_early (p : Pipeline) (c : String) (cd : Community) (i : String)
    (h : return_dataservice_id (p.catalog (community_title cd)) (community_title cd)
        (hui_output_filename p c) p.user_input = some (some i)) :
    run_one_community p c cd = (CommStep.early i, [Event.checked c]) := by
  unfold run_one_community
  rw [h]

lemma gen_go_cons_early (p : Pipeline) (c : String) (cd : Community)
    (rest : List (String × Community)) (last : Option String) (i : String)
    (h : run_one_community p c cd = (CommStep.early i, [Event.checked c])) :
    gen_go p ((c, cd) :: rest) last = (some i, [Event.checked c]) := by
  simp [gen_go, h]

lemma gen_go_cons_completed (p : Pipeline) (c : String) (cd : Community)
    (rest : List (String × Community)) (last : Option String) (i : String)
    (evs : List Event)
    (h : run_one_community p c cd = (CommStep.completed i, evs)) :
    gen_go p ((c, cd) :: rest) last
      = ((gen_go p rest (some i)).1, evs ++ (gen_go p rest (some i)).2) := by
  simp [gen_go, h]

lemma gen_go_cons_last (p : Pipeline) (c : String) (cd : Community)
    (rest : List (String × Community)) (last₁ last₂ : Option String) :
    gen_go p ((c, cd) :: rest) last₁ = gen_go p ((c, cd) :: rest) last₂ := rfl

lemma gen_go_pre_completed (p : Pipeline) (c : String) (cd : Community)
    (post : List (String × Community)) :
    ∀ (pre : List (String × Community)),
      (∀ e ∈ pre, ∃ j, (run_one_community p e.1 e.2).1 = CommStep.completed j) →
      ∀ (last : Option String),
      gen_go p (pre ++ (c, cd) :: post) last
        = ((gen_go p ((c, cd) :: post) none).1,
            (pre.map fun e => (run_one_community p e.1 e.2).2).flatten
              ++ (gen_go p ((c, cd) :: post) none).2) := by
  intro pre
  induction pre with
  | nil =>
    intro _ last
    rw [List.nil_append, gen_go_cons_last p c cd post last none]
    simp
  | cons e pre ih =>
    obtain ⟨c0, cd0⟩ := e
    intro hpre last
    obtain ⟨j, hj⟩ := hpre (c0, cd0) (by simp)
    have hpair : run_one_community p c0 cd0
        = (CommStep.completed j, (run_one_community p c0 cd0).2) := by
      rw [← hj]
    rw [List.cons_append]
    rw [gen_go_cons_completed p c0 cd0 (pre ++ (c, cd) :: post) last j
        (run_one_community p c0 cd0).2 hpair]
    rw [ih (fun x hx => hpre x (by simp [hx])) (some j)]
    simp

/-- C10: on an empty communities mapping `generate_hui_v2_for_incore` does
not return a dataset id: the loop never binds `dataset_id`, so the final
`return dataset_id` (line 306) raises `NameError` (result `none`); a
non-empty mapping is a precondition. -/
theorem claim_C10 (p : Pipeline) :
    generate_hui_v2_for_incore p [] = (none, []) := rfl

/-- C7: determinism.  Two executions of the pipeline over the same
communities mapping whose run contexts agree on the seed and on the input
snapshot (catalog contents, the seeded per-county synthesis, directory
layout, `sys.path[0]`, created ids, filesystem behaviour, stdin, version
text and vintage) produce identical results, including identical written
output tables: the output depends on nothing else. -/
theorem claim_C7 (p₁ p₂ : Pipeline) (cs : List (String × Community))
    (hcat : p₁.catalog = p₂.catalog)
    (hwk : p₁.run_workflow = p₂.run_workflow)
    (htf : p₁.topFolder = p₂.topFolder)
    (hsp : p₁.syspath0 = p₂.syspath0)
    (hcd : p₁.create_dataset_id = p₂.create_dataset_id)
    (hw : p₁.writeOk = p₂.writeOk)
    (hui : p₁.user_input = p₂.user_input)
    (hvt : p₁.version_text = p₂.version_text)
    (hbv : p₁.basevintage = p₂.basevintage)
    (hs : p₁.seed = p₂.seed) :
    generate_hui_v2_for_incore p₁ cs = generate_hui_v2_for_incore p₂ cs := by
  have hp : p₁ = p₂ := by
    cases p₁
    cases p₂
    simp only [Pipeline.mk.injEq]
    exact ⟨hcat, hwk, htf, hsp, hcd, hw, hui, hvt, hbv, hs⟩
  rw [hp]

/-- C5: idempotent publish.  When the catalog search for the community's
title returns exactly the one dataset that matches title and expected output
filename, a run of the pipeline on that community returns that dataset's
existing id with no generation, write or upload (the trace is just the
check), and a second run with no intervening change returns the same. -/
theorem claim_C5 (p : Pipeline) (c : String) (cd : Community) (d : Dataset)
    (h1 : p.catalog (community_title cd) = [d])
    (h2 : d.title = community_title cd)
    (h3 : first_fd_filename d = some (hui_output_filename p c ++ ".csv")) :
    generate_hui_v2_for_incore p [(c, cd)] = (some d.id, [Event.checked c])
    ∧ generate_hui_v2_for_incore p [(c, cd)]
        = generate_hui_v2_for_incore p [(c, cd)] := by
  have hr : return_dataservice_id (p.catalog (community_title cd))
      (community_title cd) (hui_output_filename p c) p.user_input
      = some (some d.id) := by
    rw [h1]
    exact rds_single_match d _ _ _ h2 h3
  exact ⟨gen_go_cons_early p c cd [] none d.id (run_one_early p c cd d.id hr), rfl⟩

lemma eventCommunity_run_one (p : Pipeline) (c : String) (cd : Community) :
    ∀ ev ∈ (run_one_community p c cd).2,
      eventCommunity ev = none ∨ eventCommunity ev = some c := by
  intro ev hev
  cases hr : return_dataservice_id (p.catalog (community_title cd))
      (community_title cd) (hui_output_filename p c) p.user_input with
  | none =>
    simp only [run_one_community, hr] at hev
    simp at hev
    subst hev
    simp [eventCommunity]
  | some v =>
    cases v with
    | some i =>
      simp only [run_one_community, hr] at hev
      simp at hev
      subst hev
      simp [eventCommunity]
    | none =>
      cases hlt : last_top p cd.counties with
      | none =>
        simp only [run_one_community, hr, hlt] at hev
        simp at hev
        rcases hev with rfl | ⟨x, hx, rfl⟩ <;> simp [eventCommunity]
      | some top =>
        cases hft : fix_table (hui_incore_df p cd.counties) with
        | none =>
          simp only [run_one_community, hr, hlt, hft] at hev
          simp at hev
          rcases hev with rfl | ⟨x, hx, rfl⟩ <;> simp [eventCommunity]
        | some fixed =>
          cases hw1 : p.writeOk (savefile_path p top c) with
          | false =>
            simp only [run_one_community, hr, hlt, hft] at hev
            simp [hw1] at hev
            rcases hev with rfl | ⟨x, hx, rfl⟩ <;> simp [eventCommunity]
          | true =>
            cases hw2 : p.writeOk (common_directory_csv p top c) with
            | false =>
              simp only [run_one_community, hr, hlt, hft] at hev
              simp [hw1, hw2] at hev
              rcases hev with rfl | ⟨x, hx, rfl⟩ | rfl <;> simp [eventCommunity]
            | true =>
              simp only [run_one_community, hr, hlt, hft] at hev
              simp [hw1, hw2] at hev
              rcases hev with rfl | ⟨x, hx, rfl⟩ | rfl | rfl | rfl <;>
                simp [eventCommunity]

/-- C8: when the run reaches a community whose publish check returns a
non-`None` id (each earlier community having completed its
generate-and-upload), `generate_hui_v2_for_incore` returns that id
immediately: the trace is the earlier communities' events followed by this
community's check only, and no later community of the mapping is checked,
generated or uploaded. -/
theorem claim_C8 (p : Pipeline) (pre post : List (String × Community))
    (c : String) (cd : Community) (i : String)
    (hpre : ∀ e ∈ pre, ∃ j, (run_one_community p e.1 e.2).1 = CommStep.completed j)
    (hc : return_dataservice_id (p.catalog (community_title cd)) (community_title cd)
        (hui_output_filename p c) p.user_input = some (some i))
    (hkeys : ∀ e ∈ post, e.1 ∉ pre.map Prod.fst ∧ e.1 ≠ c) :
    generate_hui_v2_for_incore p (pre ++ (c, cd) :: post)
      = (some i,
          (pre.map fun e => (run_one_community p e.1 e.2).2).flatten
            ++ [Event.checked c])
    ∧ ∀ e ∈ post, ∀ ev ∈ (generate_hui_v2_for_incore p (pre ++ (c, cd) :: post)).2,
        eventCommunity ev ≠ some e.1 := by
  have hmain : generate_hui_v2_for_incore p (pre ++ (c, cd) :: post)
      = (some i,
          (pre.map fun e => (run_one_community p e.1 e.2).2).flatten
            ++ [Event.checked c]) := by
    unfold generate_hui_v2_for_incore
    rw [gen_go_pre_completed p c cd post pre hpre none]
    rw [gen_go_cons_early p c cd post none i (run_one_early p c cd i hc)]
  refine ⟨hmain, ?_⟩
  intro e he ev hev
  rw [hmain] at hev
  simp only [List.mem_append, List.mem_flatten, List.mem_map] at hev
  rcases hev with ⟨evs, ⟨x, hx, hxe⟩, hev⟩ | hev
  · subst hxe
    rcases eventCommunity_run_one p x.1 x.2 ev hev with hn | hs
    · simp [hn]
    · rw [hs]
      intro hcontra
      have hx1 : x.1 ∈ pre.map Prod.fst := List.mem_map_of_mem Prod.fst hx
      have := (hkeys e he).1
      simp at hcontra
      exact this (hcontra ▸ hx1)
  · simp at hev
    rw [hev]
    simp [eventCommunity]
    intro hcontra
    exact (hkeys e he).2 hcontra.symm

/-- C6: a community run that generates writes the finalized (type-normalized)
table with identical content to exactly the two file locations of
lines 226-232 — the run-specific path (`sys.path[0]` under the last county's
output folder) and the shared/common path — and the iteration completes only
when both writes succeed: failure of the first write stops the run before
any upload, failure of the second write after the first is likewise fatal,
and neither failure is reported as a completed run. -/
theorem claim_C6 (p : Pipeline) (c : String) (cd : Community) (top : String)
    (fixed : Table)
    (hsearch : return_dataservice_id (p.catalog (community_title cd))
        (community_title cd) (hui_output_filename p c) p.user_input = some none)
    (htop : last_top p cd.counties = some top)
    (hfix : fix_table (hui_incore_df p cd.counties) = some fixed) :
    (p.writeOk (savefile_path p top c) = true →
      p.writeOk (common_directory_csv p top c) = true →
      run_one_community p c cd
        = (CommStep.completed (p.create_dataset_id (community_title cd)),
            Event.checked c
              :: (cd.counties.map fun e => Event.generated c e.1)
              ++ [Event.wrote (savefile_path p top c) fixed,
                  Event.wrote (common_directory_csv p top c) fixed,
                  Event.uploaded c (p.create_dataset_id (community_title cd))]))
    ∧ (p.writeOk (savefile_path p top c) = false →
        (run_one_community p c cd).1 = CommStep.failed)
    ∧ (p.writeOk (savefile_path p top c) = true →
        p.writeOk (common_directory_csv p top c) = false →
        (run_one_community p c cd).1 = CommStep.failed) := by
  refine ⟨?_, ?_, ?_⟩
  · intro hw1 hw2
    simp only [run_one_community, hsearch, htop, hfix]
    simp [hw1, hw2]
  · intro hw1
    simp only [run_one_community, hsearch, htop, hfix]
    simp [hw1]
  · intro hw1 hw2
    simp only [run_one_community, hsearch, htop, hfix]
    simp [hw1, hw2]

lemma insertAssoc_of_not_mem (m : List (String × Table)) (k : String) (v : Table)
    (h : ∀ q ∈ m, q.1 ≠ k) : insertAssoc m k v = m ++ [(k, v)] := by
  unfold insertAssoc
  have hany : (m.any fun q => q.1 == k) = false := by
    rw [Bool.eq_false_iff]
    intro hany
    obtain ⟨q, hq, hqe⟩ := List.any_eq_true.mp hany
    exact h q hq (by simpa using hqe)
  simp [hany]

lemma county_tables_of_nodup (p : Pipeline) :
    ∀ (counties : List (String × County)) (acc : List (String × Table)),
      (counties.map fun e => e.2.fips).Nodup →
      (∀ e ∈ counties, ∀ q ∈ acc, q.1 ≠ e.2.fips) →
      counties.foldl
          (fun dict e => insertAssoc dict e.2.fips (p.run_workflow e.2.fips e.2.name))
          acc
        = acc ++ counties.map fun e => (e.2.fips, p.run_workflow e.2.fips e.2.name) := by
  intro counties
  induction counties with
  | nil => intro acc _ _; simp
  | cons e rest ih =>
    intro acc hnd hdisj
    rw [List.foldl_cons,
      insertAssoc_of_not_mem acc e.2.fips _ fun q hq => hdisj e (by simp) q hq]
    rw [List.map_cons, List.nodup_cons] at hnd
    rw [ih (acc ++ [(e.2.fips, p.run_workflow e.2.fips e.2.name)]) hnd.2 ?_]
    · simp
    · intro x hx q hq
      rcases List.mem_append.mp hq with hq | hq
      · exact hdisj x (by simp [hx]) q hq
      · simp at hq
        subst hq
        intro hcontra
        simp only at hcontra
        apply hnd.1
        rw [hcontra]
        exact List.mem_map_of_mem (fun e => e.2.fips) hx

/-- C3 (amended): provided the counties of the community carry pairwise
distinct FIPS codes — the dict `hui_incore_county_df` is keyed by FIPS code,
so a duplicate FIPS code overwrites the earlier county's table — the
concatenated table `hui_incore_df` is exactly the per-county tables joined in
county-list order: each county's rows form a contiguous block, blocks follow
the county-list order, rows within a block keep their generation order, and
the arrangement depends on nothing but the county list. -/
theorem claim_C3 (p : Pipeline) (counties : List (String × County))
    (hdist : (counties.map fun e => e.2.fips).Nodup) :
    hui_incore_df p counties
      = (counties.map fun e => p.run_workflow e.2.fips e.2.name).flatten := by
  unfold hui_incore_df county_tables
  rw [county_tables_of_nodup p counties [] hdist (by simp)]
  simp [List.map_map, Function.comp_def]

/-- A pipeline with concrete collaborators used to instantiate theorems:
the per-county workflow tags each row with the county's FIPS code and name,
the catalog is empty, every write succeeds. -/
def pDup : Pipeline :=
  { catalog := fun _ => []
    run_workflow := fun f n => [[Cell.cStr (f ++ n)]]
    topFolder := fun n => "OutputData/" ++ n
    syspath0 := "/home/user"
    create_dataset_id := fun _ => "newid42"
    writeOk := fun _ => true
    user_input := none
    version_text := "v2-0-0"
    basevintage := 2010
    seed := 9876 }

/-- Two counties of one community sharing the FIPS code 48167. -/
def countiesDup : List (String × County) :=
  [("county1", ⟨"48167", "A"⟩), ("county2", ⟨"48167", "B"⟩)]

/-- Counterexample to C3 as stated: with two counties sharing a FIPS code,
the first county's generated row is absent from the concatenated table (the
dict entry keyed by the shared FIPS code was overwritten by the second
county), so the concatenated table does not contain each county's rows. -/
theorem claim_C3_cex :
    [Cell.cStr "48167A"] ∈ pDup.run_workflow "48167" "A"
    ∧ [Cell.cStr "48167A"] ∉ hui_incore_df pDup countiesDup := by
  constructor
  · simp [pDup]
  · decide

/-- Witness for the amended C3 at two distinct-FIPS counties. -/
theorem claim_C3_witness :
    (([("county1", (⟨"48167", "A"⟩ : County)), ("county2", ⟨"48201", "B"⟩)].map
        fun e => e.2.fips).Nodup)
    ∧ hui_incore_df pDup [("county1", ⟨"48167", "A"⟩), ("county2", ⟨"48201", "B"⟩)]
        = ([("county1", (⟨"48167", "A"⟩ : County)), ("county2", ⟨"48201", "B"⟩)].map
            fun e => pDup.run_workflow e.2.fips e.2.name).flatten :=
  ⟨by decide,
    claim_C3 pDup [("county1", ⟨"48167", "A"⟩), ("county2", ⟨"48201", "B"⟩)] (by decide)⟩

/-- A catalog dataset matching the community `comm1` below: title and first
file descriptor agree with the expected output filename. -/
def dExample : Dataset :=
  { title := "Housing Unit Inventory v2.0.0 data for Lumberton"
    fileDescriptors := [{ filename := "hui_v2-0-0_comm1_2010_rs9876.csv" }]
    id := "abc123" }

/-- A second catalog dataset, used to form a multi-match search result. -/
def dExampleB : Dataset :=
  { title := "Housing Unit Inventory v2.0.0 data for Lumberton"
    fileDescriptors := [{ filename := "hui_v2-0-0_comm9_2010_rs9876.csv" }]
    id := "zzz999" }

/-- A single-match near-miss: same title, different first filename. -/
def dMismatch : Dataset :=
  { title := "Housing Unit Inventory v2.0.0 data for Lumberton"
    fileDescriptors := [{ filename := "other.csv" }]
    id := "near777" }

/-- A one-county community. -/
def cdExample : Community :=
  { community_name := "Lumberton"
    counties := [("county1", { fips := "48167", name := "Galveston County, TX" })] }

/-- A pipeline whose catalog already holds `dExample` for every search. -/
def pExample : Pipeline :=
  { catalog := fun _ => [dExample]
    run_workflow := fun f n =>
      [[Cell.cStr f, Cell.cStr n, Cell.cFloat false 4 "0",
        Cell.cFloat false 45231 "5"]]
    topFolder := fun n => "OutputData/" ++ n
    syspath0 := "/home/user"
    create_dataset_id := fun _ => "newid42"
    writeOk := fun _ => true
    user_input := none
    version_text := "v2-0-0"
    basevintage := 2010
    seed := 9876 }

/-- The same pipeline with an empty catalog. -/
def pEmptyCat : Pipeline :=
  { pExample with catalog := fun _ => [] }

/-- The same pipeline whose catalog holds only the near-miss. -/
def pMismatch : Pipeline :=
  { pExample with catalog := fun _ => [dMismatch] }

/-- The type-normalized form of the `comm1` table generated by `pEmptyCat`:
the join-artifact `4.0` became `4`, the income `45231.5` is untouched. -/
def fixedExample : Table :=
  [[Cell.cStr "48167", Cell.cStr "Galveston County, TX", Cell.cInt 4,
    Cell.cFloat false 45231 "5"]]

/-- Witness for C1: the exact single match returns its id, an empty search
returns `None`, and with an empty catalog the pipeline generates. -/
theorem claim_C1_witness :
    return_dataservice_id [dExample] (community_title cdExample)
        (hui_output_filename pExample "comm1") none = some (some dExample.id)
    ∧ return_dataservice_id [] (community_title cdExample)
        (hui_output_filename pExample "comm1") none = some none
    ∧ Event.generated "comm1" "county1"
        ∈ (run_one_community pEmptyCat "comm1" cdExample).2 := by
  have h := claim_C1 (community_title cdExample) (hui_output_filename pExample "comm1")
    dExample none rfl rfl
  exact ⟨h.1, h.2.1,
    h.2.2 pEmptyCat "comm1" cdExample "county1"
      { fips := "48167", name := "Galveston County, TX" } [] rfl rfl⟩

/-- Witness for C4: a two-match search with no external input returns no
id. -/
theorem claim_C4_witness :
    return_dataservice_id [dExample, dExampleB] "T" "F" none = none :=
  (claim_C4 [dExample, dExampleB] "T" "F" (by decide)).1

/-- Witness for C5: with the matching dataset already catalogued, the run
returns its id and the trace is the check alone. -/
theorem claim_C5_witness :
    generate_hui_v2_for_incore pExample [("comm1", cdExample)]
      = (some dExample.id, [Event.checked "comm1"]) :=
  (claim_C5 pExample "comm1" cdExample dExample rfl rfl rfl).1

/-- Witness for C6: with both writes succeeding, the run completes with the
two writes of the identical normalized table and the upload. -/
theorem claim_C6_witness :
    run_one_community pEmptyCat "comm1" cdExample
      = (CommStep.completed "newid42",
          Event.checked "comm1"
            :: [Event.generated "comm1" "county1"]
            ++ [Event.wrote
                  (savefile_path pEmptyCat "OutputData/Galveston County, TX" "comm1")
                  fixedExample,
                Event.wrote
                  (common_directory_csv pEmptyCat "OutputData/Galveston County, TX" "comm1")
                  fixedExample,
                Event.uploaded "comm1" "newid42"]) :=
  (claim_C6 pEmptyCat "comm1" cdExample "OutputData/Galveston County, TX" fixedExample
    rfl rfl (by decide)).1 rfl rfl

/-- Witness for C7: the run applied to equal contexts gives equal output. -/
theorem claim_C7_witness :
    generate_hui_v2_for_incore pExample [("comm1", cdExample)]
      = generate_hui_v2_for_incore pExample [("comm1", cdExample)] :=
  claim_C7 pExample pExample [("comm1", cdExample)] rfl rfl rfl rfl rfl rfl rfl rfl
    rfl rfl

/-- Witness for C8: the first community's check finds the match, the second
community is never touched. -/
theorem claim_C8_witness :
    generate_hui_v2_for_incore pExample [("comm1", cdExample), ("comm2", cdExample)]
      = (some dExample.id, [Event.checked "comm1"]) :=
  (claim_C8 pExample [] [("comm2", cdExample)] "comm1" cdExample dExample.id
    (by simp) (by decide) (by decide)).1

/-- Witness for C9: a near-miss (same title, filename `other.csv`) yields
`None` and the community is regenerated. -/
theorem claim_C9_witness :
    return_dataservice_id [dMismatch] (community_title cdExample)
        (hui_output_filename pMismatch "comm1") pMismatch.user_input = some none
    ∧ Event.generated "comm1" "county1"
        ∈ (run_one_community pMismatch "comm1" cdExample).2 := by
  have h := claim_C9 pMismatch "comm1" cdExample dMismatch "other.csv" rfl
    (Or.inr (by decide)) rfl
  exact ⟨h.1,
    h.2 "county1" { fips := "48167", name := "Galveston County, TX" } [] rfl⟩
